import Mathlib

/-!
Verification of the revm account-state changeset and revert engine
(`crates/revm/src/db/states/bundle_account.rs` and `cache.rs`).

Storage maps (Rust `HashMap`) are modelled as association lists with
strictly increasing keys, so that extensional equality of maps coincides
with structural equality and all operations stay executable.
-/

set_option autoImplicit false

namespace Revm


/-! ## Sorted association-list maps -/

namespace RawMap

variable {α β : Type}

/-- Keys are strictly increasing along the list. -/
def Sorted (l : List (Nat × α)) : Prop :=
  l.Pairwise (fun a b => a.1 < b.1)

/-- Lookup by key, first match. -/
def lookup (k : Nat) : List (Nat × α) → Option α
  | [] => none
  | (k', a) :: t => if k' = k then some a else lookup k t

/-- Insert or rewrite the entry at a key, keeping keys sorted.
Mirrors the map `entry` API: `f none` decides what an absent key becomes,
`f (some a)` what a present one becomes; `none` results drop the entry. -/
def alter (k : Nat) (f : Option α → Option α) : List (Nat × α) → List (Nat × α)
  | [] =>
    match f none with
    | some b => [(k, b)]
    | none => []
  | (k', a') :: t =>
    if k < k' then
      match f none with
      | some b => (k, b) :: (k', a') :: t
      | none => (k', a') :: t
    else if k' = k then
      match f (some a') with
      | some b => (k', b) :: t
      | none => t
    else
      (k', a') :: alter k f t

/-- Transform values, possibly dropping entries; keys are unchanged. -/
def filterMapVals (f : Nat → α → Option β) : List (Nat × α) → List (Nat × β)
  | [] => []
  | (k, a) :: t =>
    match f k a with
    | some b => (k, b) :: filterMapVals f t
    | none => filterMapVals f t

def mem_alter_key {l : List (Nat × α)} {k : Nat} {f : Option α → Option α}
    {p : Nat × α} (hp : p ∈ alter k f l) : p.1 = k ∨ ∃ q ∈ l, p.1 = q.1 := by
  induction l with
  | nil =>
    simp only [alter] at hp
    cases hf : f none with
    | none => rw [hf] at hp; simp at hp
    | some b =>
      rw [hf] at hp
      simp only [List.mem_singleton] at hp
      subst hp; exact Or.inl rfl
  | cons hd t ih =>
    obtain ⟨k', a'⟩ := hd
    simp only [alter] at hp
    by_cases h1 : k < k'
    · rw [if_pos h1] at hp
      cases hf : f none with
      | none =>
        rw [hf] at hp
        rcases List.mem_cons.1 hp with h | h
        · exact Or.inr ⟨(k', a'), List.mem_cons_self _ _, by rw [h]⟩
        · exact Or.inr ⟨p, List.mem_cons_of_mem _ h, rfl⟩
      | some b =>
        rw [hf] at hp
        rcases List.mem_cons.1 hp with h | h
        · subst h; exact Or.inl rfl
        · rcases List.mem_cons.1 h with h2 | h2
          · exact Or.inr ⟨(k', a'), List.mem_cons_self _ _, by rw [h2]⟩
          · exact Or.inr ⟨p, List.mem_cons_of_mem _ h2, rfl⟩
    · rw [if_neg h1] at hp
      by_cases h2 : k' = k
      · rw [if_pos h2] at hp
        cases hf : f (some a') with
        | none =>
          rw [hf] at hp
          exact Or.inr ⟨p, List.mem_cons_of_mem _ hp, rfl⟩
        | some b =>
          rw [hf] at hp
          rcases List.mem_cons.1 hp with h | h
          · subst h; exact Or.inl h2
          · exact Or.inr ⟨p, List.mem_cons_of_mem _ h, rfl⟩
      · rw [if_neg h2] at hp
        rcases List.mem_cons.1 hp with h | h
        · exact Or.inr ⟨(k', a'), List.mem_cons_self _ _, by rw [h]⟩
        · rcases ih h with h3 | ⟨q, hq, hq2⟩
          · exact Or.inl h3
          · exact Or.inr ⟨q, List.mem_cons_of_mem _ hq, hq2⟩

def Sorted.alter {l : List (Nat × α)} (hs : Sorted l) (k : Nat)
    (f : Option α → Option α) : Sorted (alter k f l) := by
  induction l with
  | nil =>
    simp only [RawMap.alter]
    cases f none with
    | none => exact List.Pairwise.nil
    | some b => exact List.pairwise_singleton _ _
  | cons hd t ih =>
    obtain ⟨k', a'⟩ := hd
    rw [Sorted, List.pairwise_cons] at hs
    obtain ⟨hlt, hst⟩ := hs
    replace hlt : ∀ p ∈ t, k' < p.1 := hlt
    simp only [RawMap.alter]
    by_cases h1 : k < k'
    · rw [if_pos h1]
      cases f none with
      | none =>
        exact List.pairwise_cons.2 ⟨hlt, hst⟩
      | some b =>
        refine List.pairwise_cons.2 ⟨?_, List.pairwise_cons.2 ⟨hlt, hst⟩⟩
        intro q hq
        show k < q.1
        rcases List.mem_cons.1 hq with h | h
        · rw [h]; exact h1
        · exact lt_trans h1 (hlt q h)
    · rw [if_neg h1]
      by_cases h2 : k' = k
      · rw [if_pos h2]
        cases f (some a') with
        | none => exact hst
        | some b => exact List.pairwise_cons.2 ⟨hlt, hst⟩
      · rw [if_neg h2]
        refine List.pairwise_cons.2 ⟨?_, ih hst⟩
        intro q hq
        show k' < q.1
        rcases mem_alter_key hq with h | ⟨p, hp, hpq⟩
        · rw [h]
          omega
        · rw [hpq]; exact hlt p hp

def mem_filterMapVals_key {l : List (Nat × α)} {f : Nat → α → Option β}
    {p : Nat × β} (hp : p ∈ filterMapVals f l) : ∃ q ∈ l, p.1 = q.1 := by
  induction l with
  | nil => simp [filterMapVals] at hp
  | cons hd t ih =>
    obtain ⟨k, a⟩ := hd
    simp only [filterMapVals] at hp
    cases hf : f k a with
    | none =>
      rw [hf] at hp
      obtain ⟨q, hq, hq2⟩ := ih hp
      exact ⟨q, List.mem_cons_of_mem _ hq, hq2⟩
    | some b =>
      rw [hf] at hp
      rcases List.mem_cons.1 hp with h | h
      · exact ⟨(k, a), List.mem_cons_self _ _, by rw [h]⟩
      · obtain ⟨q, hq, hq2⟩ := ih h
        exact ⟨q, List.mem_cons_of_mem _ hq, hq2⟩

def Sorted.filterMapVals {l : List (Nat × α)} (hs : Sorted l)
    (f : Nat → α → Option β) : Sorted (filterMapVals f l) := by
  induction l with
  | nil => exact List.Pairwise.nil
  | cons hd t ih =>
    obtain ⟨k, a⟩ := hd
    rw [Sorted, List.pairwise_cons] at hs
    obtain ⟨hlt, hst⟩ := hs
    replace hlt : ∀ p ∈ t, k < p.1 := hlt
    simp only [RawMap.filterMapVals]
    cases f k a with
    | none => exact ih hst
    | some b =>
      refine List.pairwise_cons.2 ⟨?_, ih hst⟩
      intro q hq
      show k < q.1
      obtain ⟨p, hp, hpq⟩ := mem_filterMapVals_key hq
      rw [hpq]; exact hlt p hp

end RawMap

/-- Finite map from storage keys, with canonically sorted entries. -/
structure Smap (α : Type) : Type where
  entries : List (Nat × α)
  sorted : RawMap.Sorted entries

namespace Smap

variable {α β : Type}

def ext {m n : Smap α} (h : m.entries = n.entries) : m = n := by
  cases m; cases n; cases h; rfl

instance [DecidableEq α] : DecidableEq (Smap α) := fun m n =>
  decidable_of_iff (m.entries = n.entries) ⟨ext, by rintro rfl; rfl⟩

def empty : Smap α := ⟨[], List.Pairwise.nil⟩

def lookup (m : Smap α) (k : Nat) : Option α := RawMap.lookup k m.entries

def alter (m : Smap α) (k : Nat) (f : Option α → Option α) : Smap α :=
  ⟨RawMap.alter k f m.entries, m.sorted.alter k f⟩

def insert (m : Smap α) (k : Nat) (a : α) : Smap α :=
  m.alter k (fun _ => some a)

def filterMapVals (m : Smap α) (f : Nat → α → Option β) : Smap β :=
  ⟨RawMap.filterMapVals f m.entries, m.sorted.filterMapVals f⟩

/-- Build a map from a (not necessarily sorted) pair list. -/
def ofList (l : List (Nat × α)) : Smap α :=
  l.foldl (fun m p => m.insert p.1 p.2) empty

/-- Fold a pair list into the map, altering one key per entry.
Models the Rust `for (key, value) in other { this.entry(key)... }` loops. -/
def foldAlter (g : β → Option α → Option α) (m : Smap α) :
    List (Nat × β) → Smap α
  | [] => m
  | kv :: t => foldAlter g (m.alter kv.1 (g kv.2)) t

end Smap

/-! ## Data model

Types mirroring `revm_interpreter::primitives` and
`crates/revm/src/db/states`.  256-bit words (`U256`, `B256`) are modelled
as `Nat` (the code only compares them for equality and uses the zero
constant, so width truncation never matters), addresses as `Nat`.
-/

/-- Storage slot: original value of the diffing epoch plus present value
(see spec section 3 and `StorageSlot` in the interpreter primitives). -/
structure StorageSlot where
  original_value : Nat
  present_value : Nat
  deriving DecidableEq, Repr

/-- Modelled from the spec: `StorageSlot::new_changed` lives in the
interpreter primitives crate, outside `src/`.  It builds a slot from an
original and a present value, per the field names at its use site in
`BundleAccount::revert` (the code comment there says the original value is
set to the reverted value when the slot is absent). -/
def StorageSlot.new_changed (original present : Nat) : StorageSlot :=
  ⟨original, present⟩

/-- Hash of the empty bytecode; only its identity matters here. -/
def KECCAK_EMPTY : Nat := 0

/-- Account info (`AccountInfo` in the interpreter primitives): balance,
nonce, code hash and optional bytecode; bytecode is abstracted to `Nat`. -/
structure AccountInfo where
  balance : Nat
  nonce : Nat
  code_hash : Nat
  code : Option Nat
  deriving DecidableEq, Repr

/-- Modelled from the spec: `AccountInfo::default()` is defined in the
interpreter primitives crate, outside `src/`.  Spec section 3 says an
empty account has zero balance, zero nonce and the canonical empty-code
hash. -/
def AccountInfo.default : AccountInfo :=
  { balance := 0, nonce := 0, code_hash := KECCAK_EMPTY, code := none }

/-- Modelled from the spec: `AccountInfo::is_empty` (EIP-161 emptiness)
is defined outside `src/`; spec section 3: zero balance, zero nonce and
the canonical empty-code hash. -/
def AccountInfo.is_empty (info : AccountInfo) : Bool :=
  info.balance = 0 && info.nonce = 0 && info.code_hash = KECCAK_EMPTY

/-- Account status tags, exactly the eight of `AccountStatus`. -/
inductive AccountStatus where
  | LoadedNotExisting
  | Loaded
  | LoadedEmptyEIP161
  | InMemoryChange
  | Changed
  | Destroyed
  | DestroyedChanged
  | DestroyedAgain
  deriving DecidableEq, Repr

/-- Modelled from the spec: `AccountStatus::storage_known` is defined in
`account_status.rs`, outside `src/`.  Spec sections 3 and 4.3: storage is
fully known when the account is known not to exist, was created purely in
memory, or is known destroyed, so absent slots read as zero. -/
def AccountStatus.storage_known : AccountStatus → Bool
  | .LoadedNotExisting => true
  | .InMemoryChange => true
  | .Destroyed => true
  | .DestroyedChanged => true
  | .DestroyedAgain => true
  | _ => false

/-- Modelled from the spec: `AccountStatus::was_destroyed` is defined
outside `src/`; it holds for the destroyed-family tags. -/
def AccountStatus.was_destroyed : AccountStatus → Bool
  | .Destroyed => true
  | .DestroyedChanged => true
  | .DestroyedAgain => true
  | _ => false

/-- Storage with original values: slot key to `StorageSlot`
(`StorageWithOriginalValues`). -/
abbrev StorageWithOriginalValues := Smap StorageSlot

/-- What the revert does to the account info (`AccountInfoRevert`). -/
inductive AccountInfoRevert where
  | DoNothing
  | DeleteIt
  | RevertTo (info : AccountInfo)
  deriving DecidableEq, Repr

/-- Per-slot revert instruction (`RevertToSlot`): restore a previous
value, or remove a slot that did not exist before the update. -/
inductive RevertToSlot where
  | Some (value : Nat)
  | Destroyed
  deriving DecidableEq, Repr

/-- Compensating instruction set for one bundle update (`AccountRevert`).
The struct itself is declared in `reverts.rs`, outside `src/`; its fields
are given by spec section 3 and by every construction site in
`bundle_account.rs`. -/
structure AccountRevert where
  account : AccountInfoRevert
  storage : Smap RevertToSlot
  previous_status : AccountStatus
  wipe_storage : Bool
  deriving DecidableEq

/-- Ephemeral per-address diff record (`TransitionAccount`), as
constructed in `cache.rs`. -/
structure TransitionAccount where
  info : Option AccountInfo
  status : AccountStatus
  storage : StorageWithOriginalValues
  previous_info : Option AccountInfo
  previous_status : AccountStatus
  deriving DecidableEq

/-- Bundle account (`BundleAccount` in `bundle_account.rs`). -/
structure BundleAccount where
  info : Option AccountInfo
  original_info : Option AccountInfo
  storage : StorageWithOriginalValues
  status : AccountStatus
  deriving DecidableEq

/-- Modelled from the spec: `AccountRevert::new_selfdestructed` lives in
`reverts.rs`, outside `src/`.  Spec section 4.2 (target `Destroyed`): the
helper packages the pre-destruction info, storage and status; the
round-trip property of section 8 requires the storage entries to restore
the pre-destruction present values, and `wipe_storage` marks the
destruction. -/
def AccountRevert.new_selfdestructed (status : AccountStatus)
    (account : AccountInfo) (storage : StorageWithOriginalValues) :
    AccountRevert :=
  { account := AccountInfoRevert.RevertTo account
    storage := storage.filterMapVals
      (fun _ s => some (RevertToSlot.Some s.present_value))
    previous_status := status
    wipe_storage := true }

/-- Mark every key of `updated` that the revert map does not mention yet
as `Destroyed` (it is created by the update and must be removed on
revert); used by the selfdestruct helpers below. -/
def addDestroyedMarkers (rs : Smap RevertToSlot)
    (updated : StorageWithOriginalValues) : Smap RevertToSlot :=
  Smap.foldAlter
    (fun _ o => match o with
      | some r => some r
      | none => some RevertToSlot.Destroyed)
    rs updated.entries

/-- Modelled from the spec: `AccountRevert::new_selfdestructed_from_bundle`
lives in `reverts.rs`, outside `src/`.  Spec section 4.2 (targets
`DestroyedChanged` / `DestroyedAgain`): when the bundle still holds
pre-destruction state (one of the four pre-destruction statuses), capture
it as a selfdestruct revert; slots first introduced by the incoming update
get `Destroyed` markers (spec section 3 on `RevertToSlot::Destroyed`).
Otherwise there is nothing to capture. -/
def AccountRevert.new_selfdestructed_from_bundle (bundle : BundleAccount)
    (updated_storage : StorageWithOriginalValues) : Option AccountRevert :=
  match bundle.status with
  | .InMemoryChange | .Changed | .LoadedEmptyEIP161 | .Loaded =>
    let base := AccountRevert.new_selfdestructed bundle.status
      (bundle.info.getD AccountInfo.default) bundle.storage
    some { base with storage := addDestroyedMarkers base.storage updated_storage }
  | _ => none

/-- Modelled from the spec: `AccountRevert::new_selfdestructed_again`
lives in `reverts.rs`, outside `src/`.  Spec section 4.2 (target
`DestroyedChanged`, prior `DestroyedAgain`): wraps the pre-update info and
storage as a selfdestruct revert and also carries the new storage forward
(as `Destroyed` markers for slots the revert map does not mention). -/
def AccountRevert.new_selfdestructed_again (status : AccountStatus)
    (account : AccountInfo) (previous_storage updated_storage :
    StorageWithOriginalValues) : AccountRevert :=
  let ps := previous_storage.filterMapVals
    (fun _ s => some (RevertToSlot.Some s.present_value))
  { account := AccountInfoRevert.RevertTo account
    storage := addDestroyedMarkers ps updated_storage
    previous_status := status
    wipe_storage := false }

namespace BundleAccount

/-- `BundleAccount::storage_slot`: present value if cached, zero if the
status makes storage fully known, otherwise unknown. -/
def storage_slot (self : BundleAccount) (slot : Nat) : Option Nat :=
  let s := (self.storage.lookup slot).map (fun sl => sl.present_value)
  if s.isSome then s
  else if self.status.storage_known then some 0
  else none

/-- Storage effect of one `RevertToSlot` entry, as in the loop of
`BundleAccount::revert`: restore the recorded value (inserting the slot
with that value as its original value when absent), or remove the slot. -/
def applyRevertStorage (m : StorageWithOriginalValues)
    (rs : Smap RevertToSlot) : StorageWithOriginalValues :=
  Smap.foldAlter
    (fun r o => match r with
      | RevertToSlot.Some value =>
        some (match o with
          | some old => { old with present_value := value }
          | none =>
            let d := StorageSlot.new_changed value 0
            { d with present_value := value })
      | RevertToSlot.Destroyed => none)
    m rs.entries

/-- `BundleAccount::revert`: apply one `AccountRevert`; the returned flag
says whether the account can be removed from the bundle. -/
def revert (self : BundleAccount) (revert : AccountRevert) :
    BundleAccount × Bool :=
  let self := { self with status := revert.previous_status }
  match revert.account with
  | AccountInfoRevert.DoNothing =>
    ({ self with storage := applyRevertStorage self.storage revert.storage },
     false)
  | AccountInfoRevert.DeleteIt =>
    ({ self with info := none, storage := Smap.empty }, true)
  | AccountInfoRevert.RevertTo info =>
    ({ self with
        info := some info
        storage := applyRevertStorage self.storage revert.storage }, false)

/-- Storage merge used by `extend` and by the `extend_storage` closure of
`update_and_create_revert`: insert-or-update present values, keeping the
original value of pre-existing slots. -/
def extendStorage (this_storage storage_update : StorageWithOriginalValues) :
    StorageWithOriginalValues :=
  Smap.foldAlter
    (fun value o => match o with
      | some old => some { old with present_value := value.present_value }
      | none => some value)
    this_storage storage_update.entries

/-- `BundleAccount::extend`: adopt the other bundle's status, info and
present storage values; original values stay. -/
def extend (self other : BundleAccount) : BundleAccount :=
  { self with
    status := other.status
    info := other.info
    storage := extendStorage self.storage other.storage }

/-- Storage part of the revert in `update_and_create_revert`: one
`RevertToSlot::Some(original_value)` entry per transition slot whose
original and present values differ. -/
def previousStorageFromUpdate (updated_storage : StorageWithOriginalValues) :
    Smap RevertToSlot :=
  updated_storage.filterMapVals
    (fun _ value =>
      if value.original_value ≠ value.present_value then
        some (RevertToSlot.Some value.original_value)
      else none)

/-- `BundleAccount::update_and_create_revert`: apply one transition and
return the revert that undoes it (`none` inside the pair when the update
is a no-op).  The outer `Option` is `none` exactly on the source's
`unreachable!` arms, which abort before any of the arm's own mutations
take effect. -/
def update_and_create_revert (self : BundleAccount)
    (transition : TransitionAccount) :
    Option (BundleAccount × Option AccountRevert) :=
  let updated_info := transition.info
  let updated_storage := transition.storage
  let updated_status := transition.status
  let previous_storage_from_update :=
    previousStorageFromUpdate updated_storage
  match updated_status with
  | AccountStatus.Changed =>
    match self.status with
    | AccountStatus.Changed =>
      let revert_info :=
        if self.info ≠ updated_info then
          AccountInfoRevert.RevertTo (self.info.getD AccountInfo.default)
        else AccountInfoRevert.DoNothing
      some ({ self with
                storage := extendStorage self.storage updated_storage
                info := updated_info },
            some { account := revert_info
                   storage := previous_storage_from_update
                   previous_status := AccountStatus.Changed
                   wipe_storage := false })
    | AccountStatus.Loaded =>
      let info_revert :=
        if self.info ≠ updated_info then
          AccountInfoRevert.RevertTo (self.info.getD AccountInfo.default)
        else AccountInfoRevert.DoNothing
      some ({ self with
                status := AccountStatus.Changed
                info := updated_info
                storage := extendStorage self.storage updated_storage },
            some { account := info_revert
                   storage := previous_storage_from_update
                   previous_status := AccountStatus.Loaded
                   wipe_storage := false })
    | AccountStatus.LoadedEmptyEIP161 =>
      let info_revert :=
        if self.info ≠ updated_info then
          AccountInfoRevert.RevertTo (self.info.getD AccountInfo.default)
        else AccountInfoRevert.DoNothing
      some ({ self with
                status := AccountStatus.Changed
                info := updated_info },
            some { account := info_revert
                   storage := Smap.empty
                   previous_status := AccountStatus.Loaded
                   wipe_storage := false })
    | _ => none
  | AccountStatus.InMemoryChange =>
    match self.status with
    | AccountStatus.LoadedEmptyEIP161 =>
      let revert_info :=
        if self.info ≠ updated_info then
          AccountInfoRevert.RevertTo AccountInfo.default
        else AccountInfoRevert.DoNothing
      some ({ self with
                status := AccountStatus.InMemoryChange
                info := updated_info
                storage := extendStorage self.storage updated_storage },
            some { account := revert_info
                   storage := previous_storage_from_update
                   previous_status := AccountStatus.LoadedEmptyEIP161
                   wipe_storage := false })
    | AccountStatus.Loaded =>
      let revert_info :=
        if self.info ≠ updated_info then
          AccountInfoRevert.RevertTo AccountInfo.default
        else AccountInfoRevert.DoNothing
      some ({ self with
                status := AccountStatus.InMemoryChange
                info := updated_info
                storage := extendStorage self.storage updated_storage },
            some { account := revert_info
                   storage := previous_storage_from_update
                   previous_status := AccountStatus.Loaded
                   wipe_storage := false })
    | AccountStatus.LoadedNotExisting =>
      some ({ self with
                status := AccountStatus.InMemoryChange
                info := updated_info
                storage := updated_storage },
            some { account := AccountInfoRevert.DeleteIt
                   storage := previous_storage_from_update
                   previous_status := AccountStatus.LoadedNotExisting
                   wipe_storage := false })
    | AccountStatus.InMemoryChange =>
      let revert_info :=
        if self.info ≠ updated_info then
          AccountInfoRevert.RevertTo (self.info.getD AccountInfo.default)
        else AccountInfoRevert.DoNothing
      some ({ self with
                status := AccountStatus.InMemoryChange
                info := updated_info
                storage := extendStorage self.storage updated_storage },
            some { account := revert_info
                   storage := previous_storage_from_update
                   previous_status := AccountStatus.InMemoryChange
                   wipe_storage := false })
    | _ => none
  | AccountStatus.Loaded | AccountStatus.LoadedNotExisting
  | AccountStatus.LoadedEmptyEIP161 =>
    some (self, none)
  | AccountStatus.Destroyed =>
    let this_info := self.info.getD AccountInfo.default
    let this_storage := self.storage
    let taken := { self with
                     info := (none : Option AccountInfo)
                     storage := (Smap.empty : StorageWithOriginalValues) }
    match self.status with
    | AccountStatus.InMemoryChange | AccountStatus.Changed
    | AccountStatus.Loaded | AccountStatus.LoadedEmptyEIP161 =>
      some ({ taken with status := AccountStatus.Destroyed },
            some (AccountRevert.new_selfdestructed self.status this_info
              this_storage))
    | AccountStatus.LoadedNotExisting =>
      some (taken, none)
    | _ => none
  | AccountStatus.DestroyedChanged =>
    match AccountRevert.new_selfdestructed_from_bundle self updated_storage with
    | some revert_state =>
      some ({ self with
                status := AccountStatus.DestroyedChanged
                info := updated_info
                storage := updated_storage },
            some revert_state)
    | none =>
      let ret : Option AccountRevert :=
        match self.status with
        | AccountStatus.Destroyed =>
          some { account := AccountInfoRevert.DeleteIt
                 storage := previous_storage_from_update
                 previous_status := AccountStatus.Destroyed
                 wipe_storage := false }
        | AccountStatus.DestroyedChanged =>
          let revert_info :=
            if self.info ≠ updated_info then
              AccountInfoRevert.RevertTo AccountInfo.default
            else AccountInfoRevert.DoNothing
          some { account := revert_info
                 storage := previous_storage_from_update
                 previous_status := AccountStatus.DestroyedChanged
                 wipe_storage := false }
        | AccountStatus.LoadedNotExisting =>
          some { account := AccountInfoRevert.DeleteIt
                 storage := previous_storage_from_update
                 previous_status := AccountStatus.LoadedNotExisting
                 wipe_storage := false }
        | AccountStatus.DestroyedAgain =>
          some (AccountRevert.new_selfdestructed_again
            AccountStatus.DestroyedAgain AccountInfo.default
            Smap.empty updated_storage)
        | _ => none
      match self.status with
      | AccountStatus.Destroyed | AccountStatus.DestroyedChanged
      | AccountStatus.LoadedNotExisting | AccountStatus.DestroyedAgain =>
        some ({ self with
                  status := AccountStatus.DestroyedChanged
                  info := updated_info
                  storage := updated_storage },
              ret)
      | _ => none
  | AccountStatus.DestroyedAgain =>
    let ret : Option (Option AccountRevert) :=
      match AccountRevert.new_selfdestructed_from_bundle self Smap.empty with
      | some revert_state => some (some revert_state)
      | none =>
        match self.status with
        | AccountStatus.Destroyed | AccountStatus.DestroyedAgain
        | AccountStatus.LoadedNotExisting =>
          some none
        | AccountStatus.DestroyedChanged =>
          some (some { account := AccountInfoRevert.RevertTo
                         (self.info.getD AccountInfo.default)
                       storage := previous_storage_from_update
                       previous_status := AccountStatus.DestroyedChanged
                       wipe_storage := false })
        | _ => none
    match ret with
    | none => none
    | some r =>
      some ({ self with
                status := AccountStatus.DestroyedAgain
                info := none
                storage := Smap.empty },
            r)

end BundleAccount

/-! ## Cache layer (`cache.rs`) -/

/-- Plain account: info plus present-value storage (`PlainAccount`). -/
structure PlainAccount where
  info : AccountInfo
  storage : Smap Nat
  deriving DecidableEq

/-- Cache account (`CacheAccount`): optional plain account plus status.
The struct is declared in `cache_account.rs`, outside `src/`; spec
section 3 gives its shape (a removed account keeps its map entry with
`info = None`). -/
structure CacheAccount where
  account : Option PlainAccount
  status : AccountStatus
  deriving DecidableEq

/-- Raw per-address execution result consumed by
`CacheState::apply_evm_state`; the interface of spec section 6: touched,
selfdestructed and created flags, info, and original/present storage. -/
structure EvmAccount where
  info : AccountInfo
  storage : StorageWithOriginalValues
  touched : Bool
  selfdestructed : Bool
  created : Bool
  deriving DecidableEq

/-- Keep only the present value of each slot. -/
def presentValues (storage : StorageWithOriginalValues) : Smap Nat :=
  storage.filterMapVals (fun _ s => some s.present_value)

namespace CacheAccount

/-- Modelled from the spec: `CacheAccount::new_loaded_not_existing` is
defined in `cache_account.rs`, outside `src/`. -/
def new_loaded_not_existing : CacheAccount :=
  { account := none, status := AccountStatus.LoadedNotExisting }

/-- Modelled from the spec: `CacheAccount::new_newly_created` is defined
in `cache_account.rs`, outside `src/`; a fresh in-memory account. -/
def new_newly_created (info : AccountInfo) (storage : Smap Nat) :
    CacheAccount :=
  { account := some { info := info, storage := storage }
    status := AccountStatus.InMemoryChange }

/-- Modelled from the spec: `CacheAccount::new_changed` is defined in
`cache_account.rs`, outside `src/`; a changed account assumed loaded. -/
def new_changed (info : AccountInfo) (storage : Smap Nat) : CacheAccount :=
  { account := some { info := info, storage := storage }
    status := AccountStatus.Changed }

/-- Modelled from the spec: `CacheAccount::selfdestruct` is defined in
`cache_account.rs`, outside `src/`.  Spec section 4.1: mark the account
destroyed (clearing info and storage) and produce the transition unless
the account was already logically absent. -/
def selfdestruct (self : CacheAccount) :
    CacheAccount × Option TransitionAccount :=
  let new_status :=
    if self.status.was_destroyed then AccountStatus.DestroyedAgain
    else AccountStatus.Destroyed
  let next : CacheAccount := { account := none, status := new_status }
  if self.status = AccountStatus.LoadedNotExisting then
    (next, none)
  else
    (next,
     some { info := none
            status := new_status
            storage := Smap.empty
            previous_info := self.account.map (fun a => a.info)
            previous_status := self.status })

/-- Modelled from the spec: `CacheAccount::newly_created` is defined in
`cache_account.rs`, outside `src/`.  Spec section 4.1: transform to an
in-memory change with the previous status recorded. -/
def newly_created (self : CacheAccount) (new_info : AccountInfo)
    (new_storage : StorageWithOriginalValues) :
    CacheAccount × TransitionAccount :=
  let new_status :=
    if self.status.was_destroyed then AccountStatus.DestroyedChanged
    else AccountStatus.InMemoryChange
  ({ account := some { info := new_info, storage := presentValues new_storage }
     status := new_status },
   { info := some new_info
     status := new_status
     storage := new_storage
     previous_info := self.account.map (fun a => a.info)
     previous_status := self.status })

/-- Modelled from the spec: `CacheAccount::touch_empty` is defined in
`cache_account.rs`, outside `src/`.  Spec section 4.1: mark the touched
empty account for removal, producing a transition only if the account was
not already considered logically absent. -/
def touch_empty (self : CacheAccount) :
    CacheAccount × Option TransitionAccount :=
  let next : CacheAccount :=
    { account := none, status := AccountStatus.Destroyed }
  if self.status = AccountStatus.LoadedNotExisting then
    (next, none)
  else
    (next,
     some { info := none
            status := AccountStatus.Destroyed
            storage := Smap.empty
            previous_info := self.account.map (fun a => a.info)
            previous_status := self.status })

/-- Modelled from the spec: `CacheAccount::change` is defined in
`cache_account.rs`, outside `src/`.  Spec section 4.1: mark the account
changed, recording previous info and status. -/
def change (self : CacheAccount) (new_info : AccountInfo)
    (new_storage : StorageWithOriginalValues) :
    CacheAccount × TransitionAccount :=
  let new_status :=
    if self.status.was_destroyed then AccountStatus.DestroyedChanged
    else AccountStatus.Changed
  ({ account := some { info := new_info, storage := presentValues new_storage }
     status := new_status },
   { info := some new_info
     status := new_status
     storage := new_storage
     previous_info := self.account.map (fun a => a.info)
     previous_status := self.status })

end CacheAccount

/-- Cache state (`CacheState` in `cache.rs`): address to cache account,
code hash to bytecode (abstracted), and the EIP-161 state-clear flag. -/
structure CacheState where
  accounts : Smap CacheAccount
  contracts : Smap Nat
  has_state_clear : Bool
  deriving DecidableEq

namespace CacheState

/-- One iteration of the `apply_evm_state` loop for one address.  The
outer `Option` is `none` exactly on the source's `unreachable!` arm (a
touched empty account absent from the cache with state clear enabled). -/
def applyOne (self : CacheState) (address : Nat) (account : EvmAccount) :
    Option (CacheState × List (Nat × TransitionAccount)) :=
  if account.touched = false then
    some (self, [])
  else if account.selfdestructed then
    match self.accounts.lookup address with
    | some this =>
      let (this', t?) := this.selfdestruct
      some ({ self with accounts := self.accounts.insert address this' },
            match t? with
            | some t => [(address, t)]
            | none => [])
    | none =>
      some ({ self with accounts :=
                self.accounts.insert address CacheAccount.new_loaded_not_existing },
            [])
  else
    let is_empty := account.info.is_empty
    if account.created then
      match self.accounts.lookup address with
      | some this =>
        let (this', t) := this.newly_created account.info account.storage
        some ({ self with accounts := self.accounts.insert address this' },
              [(address, t)])
      | none =>
        let fresh := CacheAccount.new_newly_created account.info
          (presentValues account.storage)
        some ({ self with accounts := self.accounts.insert address fresh },
              [(address,
                { info := some account.info
                  status := AccountStatus.InMemoryChange
                  storage := account.storage
                  previous_info := none
                  previous_status := AccountStatus.LoadedNotExisting })])
    else if is_empty then
      if self.has_state_clear then
        match self.accounts.lookup address with
        | some this =>
          let (this', t?) := this.touch_empty
          some ({ self with accounts := self.accounts.insert address this' },
                match t? with
                | some t => [(address, t)]
                | none => [])
        | none => none
      else
        some (self, [])
    else
      match self.accounts.lookup address with
      | some this =>
        let (this', t) := this.change account.info account.storage
        some ({ self with accounts := self.accounts.insert address this' },
              [(address, t)])
      | none =>
        let fresh := CacheAccount.new_changed account.info
          (presentValues account.storage)
        some ({ self with accounts := self.accounts.insert address fresh },
              [])

/-- `CacheState::apply_evm_state`: fold the raw execution output into the
cache, collecting the emitted transitions in input order. -/
def apply_evm_state (self : CacheState) :
    List (Nat × EvmAccount) →
    Option (CacheState × List (Nat × TransitionAccount))
  | [] => some (self, [])
  | (address, account) :: rest =>
    match applyOne self address account with
    | none => none
    | some (self', ts) =>
      match apply_evm_state self' rest with
      | none => none
      | some (self'', ts') => some (self'', ts ++ ts')

end CacheState


/-! ## Concrete example values

Small inputs used to exercise the operations at concrete states. -/

/-- Account info with balance 100 and nothing else. -/
def info100 : AccountInfo :=
  { balance := 100, nonce := 0, code_hash := KECCAK_EMPTY, code := none }

/-- Account info with balance 150 and nothing else. -/
def info150 : AccountInfo :=
  { balance := 150, nonce := 0, code_hash := KECCAK_EMPTY, code := none }

/-- Loaded bundle holding balance 100 and no storage. -/
def bundleLoaded100 : BundleAccount :=
  { info := some info100, original_info := some info100
    storage := Smap.empty, status := AccountStatus.Loaded }

/-- Transition to `Changed` with balance 150 and slot 1 going 0 to 5. -/
def transitionChanged150 : TransitionAccount :=
  { info := some info150, status := AccountStatus.Changed
    storage := Smap.ofList [(1, ⟨0, 5⟩)]
    previous_info := some info100, previous_status := AccountStatus.Loaded }

/-- The bundle after folding `transitionChanged150` into `bundleLoaded100`. -/
def bundleChanged150 : BundleAccount :=
  { info := some info150, original_info := some info100
    storage := Smap.ofList [(1, ⟨0, 5⟩)], status := AccountStatus.Changed }

/-- The revert that fold is expected to emit. -/
def revertToLoaded100 : AccountRevert :=
  { account := AccountInfoRevert.RevertTo info100
    storage := Smap.ofList [(1, RevertToSlot.Some 0)]
    previous_status := AccountStatus.Loaded
    wipe_storage := false }

/-- The bundle after applying `revertToLoaded100` to `bundleChanged150`. -/
def bundleRestored100 : BundleAccount :=
  { info := some info100, original_info := some info100
    storage := Smap.ofList [(1, ⟨0, 0⟩)], status := AccountStatus.Loaded }

/-- Changed bundle whose slot 1 already went 0 to 5. -/
def bundleChangedSlot : BundleAccount :=
  { info := some info100, original_info := some info100
    storage := Smap.ofList [(1, ⟨0, 5⟩)], status := AccountStatus.Changed }

/-- Transition identical to `bundleChangedSlot` in info, storage and status. -/
def transitionSameChanged : TransitionAccount :=
  { info := some info100, status := AccountStatus.Changed
    storage := Smap.ofList [(1, ⟨0, 5⟩)]
    previous_info := some info100, previous_status := AccountStatus.Changed }

/-- Bundle with status `LoadedNotExisting` that still carries an info. -/
def bundleNotExistingInfo : BundleAccount :=
  { info := some info100, original_info := none
    storage := Smap.empty, status := AccountStatus.LoadedNotExisting }

/-- Bundle with status `LoadedNotExisting`, no info and no storage. -/
def bundleNotExisting : BundleAccount :=
  { info := none, original_info := none
    storage := Smap.empty, status := AccountStatus.LoadedNotExisting }

/-- Transition whose target status is `Destroyed`. -/
def transitionDestroy : TransitionAccount :=
  { info := none, status := AccountStatus.Destroyed
    storage := Smap.empty
    previous_info := some info100
    previous_status := AccountStatus.LoadedNotExisting }

/-- A revert that deletes the account, carrying a slot entry that must be
ignored. -/
def revertDeleteExample : AccountRevert :=
  { account := AccountInfoRevert.DeleteIt
    storage := Smap.ofList [(1, RevertToSlot.Some 9)]
    previous_status := AccountStatus.LoadedNotExisting
    wipe_storage := false }

/-- Cache with no accounts and state clear enabled. -/
def cacheEmptyState : CacheState :=
  { accounts := Smap.empty, contracts := Smap.empty, has_state_clear := true }

/-- Touched, created raw account with balance 100 and slot 1 going 0 to 5. -/
def evmAccountCreated : EvmAccount :=
  { info := info100, storage := Smap.ofList [(1, ⟨0, 5⟩)]
    touched := true, selfdestructed := false, created := true }

/-- Touched raw account that is empty under EIP-161. -/
def evmAccountEmptyTouched : EvmAccount :=
  { info := AccountInfo.default, storage := Smap.empty
    touched := true, selfdestructed := false, created := false }

/-! ## Map lemmas -/

theorem RawMap.lookup_eq_none_of_forall {α : Type} {l : List (Nat × α)} {k : Nat}
    (h : ∀ p ∈ l, p.1 ≠ k) : lookup k l = none := by
  induction l with
  | nil => rfl
  | cons hd t ih =>
    obtain ⟨k', a⟩ := hd
    have hk : k' ≠ k := h (k', a) (List.mem_cons_self _ _)
    simp only [lookup, if_neg hk]
    exact ih fun p hp => h p (List.mem_cons_of_mem _ hp)

theorem RawMap.lookup_alter_eq {α : Type} {l : List (Nat × α)} (hs : Sorted l) (k : Nat)
    (f : Option α → Option α) : lookup k (alter k f l) = f (lookup k l) := by
  induction l with
  | nil =>
    simp only [RawMap.alter, lookup]
    cases hf : f none with
    | none => simp [lookup, hf]
    | some b => simp [lookup, hf]
  | cons hd t ih =>
    obtain ⟨k', a'⟩ := hd
    rw [Sorted, List.pairwise_cons] at hs
    obtain ⟨hlt, hst⟩ := hs
    replace hlt : ∀ p ∈ t, k' < p.1 := hlt
    simp only [RawMap.alter]
    by_cases h1 : k < k'
    · rw [if_pos h1]
      have hk : k' ≠ k := by omega
      have hnone : lookup k t = none :=
        lookup_eq_none_of_forall (fun p hp => by have := hlt p hp; omega)
      cases hf : f none with
      | none =>
        simp [lookup, hk, hnone, hf]
      | some b =>
        simp [lookup, hk, hnone, hf]
    · rw [if_neg h1]
      by_cases h2 : k' = k
      · rw [if_pos h2]
        subst h2
        have hnone : lookup k' t = none :=
          lookup_eq_none_of_forall (fun p hp => by have := hlt p hp; omega)
        cases hf : f (some a') with
        | none =>
          simp [lookup, hf, hnone]
        | some b =>
          simp [lookup, hf]
      · rw [if_neg h2]
        simp only [lookup, if_neg h2, ih hst]

theorem RawMap.lookup_alter_neq {α : Type} {l : List (Nat × α)} {k k'' : Nat} (hne : k ≠ k'')
    (f : Option α → Option α) : lookup k'' (alter k f l) = lookup k'' l := by
  induction l with
  | nil =>
    simp only [RawMap.alter]
    cases f none with
    | none => rfl
    | some b => simp [lookup, hne]
  | cons hd t ih =>
    obtain ⟨k', a'⟩ := hd
    simp only [RawMap.alter]
    by_cases h1 : k < k'
    · rw [if_pos h1]
      cases f none with
      | none => rfl
      | some b => simp [lookup, hne]
    · rw [if_neg h1]
      by_cases h2 : k' = k
      · rw [if_pos h2]
        subst h2
        cases f (some a') with
        | none => simp [lookup, hne]
        | some b => simp [lookup, hne]
      · rw [if_neg h2]
        simp only [lookup, ih]

theorem RawMap.lookup_filterMapVals_of_sorted {α β : Type}  {l : List (Nat × α)} (hs : Sorted l)
    (f : Nat → α → Option β) (k : Nat) :
    lookup k (filterMapVals f l) = (lookup k l).bind (f k) := by
  induction l with
  | nil => rfl
  | cons hd t ih =>
    obtain ⟨k', a⟩ := hd
    rw [Sorted, List.pairwise_cons] at hs
    obtain ⟨hlt, hst⟩ := hs
    replace hlt : ∀ p ∈ t, k' < p.1 := hlt
    simp only [RawMap.filterMapVals]
    by_cases h : k' = k
    · subst h
      have hnone : lookup k' t = none :=
        lookup_eq_none_of_forall (fun p hp => by have := hlt p hp; omega)
      cases hf : f k' a with
      | none =>
        have h2 : lookup k' (filterMapVals f t) = none := by
          apply lookup_eq_none_of_forall
          intro p hp
          obtain ⟨q, hq, hq2⟩ := mem_filterMapVals_key hp
          have := hlt q hq; omega
        simp [lookup, h2, hf, hnone]
      | some b =>
        simp [lookup, hf]
    · cases hf : f k' a with
      | none =>
        simp only [lookup, if_neg h, ih hst]
      | some b =>
        simp only [lookup, if_neg h, ih hst]

theorem RawMap.eq_entries_of_lookup_eq {α : Type} {l l' : List (Nat × α)} (hs : Sorted l) (hs' : Sorted l')
    (h : ∀ k, lookup k l = lookup k l') : l = l' := by
  induction l generalizing l' with
  | nil =>
    cases l' with
    | nil => rfl
    | cons hd t =>
      obtain ⟨k, a⟩ := hd
      have := h k
      simp [lookup] at this
  | cons hd t ih =>
    obtain ⟨k, a⟩ := hd
    cases l' with
    | nil =>
      have := h k
      simp [lookup] at this
    | cons hd' t' =>
      obtain ⟨k', a'⟩ := hd'
      rw [Sorted, List.pairwise_cons] at hs hs'
      obtain ⟨hlt, hst⟩ := hs
      obtain ⟨hlt', hst'⟩ := hs'
      replace hlt : ∀ p ∈ t, k < p.1 := hlt
      replace hlt' : ∀ p ∈ t', k' < p.1 := hlt'
      have hkeq : k = k' := by
        by_contra hne
        rcases Nat.lt_or_ge k k' with hlt2 | hge
        · have h1 := h k
          have h2 : lookup k ((k', a') :: t') = none := by
            apply lookup_eq_none_of_forall
            intro p hp
            show p.1 ≠ k
            rcases List.mem_cons.1 hp with heq | hmem
            · rw [heq]; show k' ≠ k; omega
            · have := hlt' p hmem; omega
          rw [h2] at h1
          simp [lookup] at h1
        · have hlt3 : k' < k := by omega
          have h1 := h k'
          have h2 : lookup k' ((k, a) :: t) = none := by
            apply lookup_eq_none_of_forall
            intro p hp
            show p.1 ≠ k'
            rcases List.mem_cons.1 hp with heq | hmem
            · rw [heq]; show k ≠ k'; omega
            · have := hlt p hmem; omega
          rw [h2] at h1
          simp [lookup] at h1
      subst hkeq
      have haeq : a = a' := by
        have h1 := h k
        simp only [lookup, if_pos rfl] at h1
        exact Option.some.inj h1
      subst haeq
      have htail : ∀ k'', lookup k'' t = lookup k'' t' := by
        intro k''
        by_cases hk : k = k''
        · subst hk
          have h2 : lookup k t = none :=
            lookup_eq_none_of_forall (fun p hp => by have := hlt p hp; omega)
          have h3 : lookup k t' = none :=
            lookup_eq_none_of_forall (fun p hp => by have := hlt' p hp; omega)
          rw [h2, h3]
        · have h1 := h k''
          simp only [lookup, if_neg hk] at h1
          exact h1
      rw [ih hst hst' htail]

@[simp] theorem Smap.lookup_empty {α : Type} (k : Nat) : (empty : Smap α).lookup k = none := rfl

theorem Smap.lookup_alter_self {α : Type} (m : Smap α) (k : Nat) (f : Option α → Option α) :
    (m.alter k f).lookup k = f (m.lookup k) :=
  RawMap.lookup_alter_eq m.sorted k f

theorem Smap.lookup_alter_ne {α : Type} (m : Smap α) {k k'' : Nat} (hne : k ≠ k'')
    (f : Option α → Option α) : (m.alter k f).lookup k'' = m.lookup k'' :=
  RawMap.lookup_alter_neq hne f

theorem Smap.lookup_filterMapVals {α β : Type} (m : Smap α) (f : Nat → α → Option β) (k : Nat) :
    (m.filterMapVals f).lookup k = (m.lookup k).bind (f k) :=
  RawMap.lookup_filterMapVals_of_sorted m.sorted f k

theorem Smap.eq_of_lookup_eq {α : Type} {m n : Smap α} (h : ∀ k, m.lookup k = n.lookup k) :
    m = n :=
  ext (RawMap.eq_entries_of_lookup_eq m.sorted n.sorted h)

theorem Smap.lookup_foldAlter_of_none {α β : Type} (g : β → Option α → Option α) (m : Smap α)
    {l : List (Nat × β)} {k : Nat} (h : ∀ p ∈ l, p.1 ≠ k) :
    (foldAlter g m l).lookup k = m.lookup k := by
  induction l generalizing m with
  | nil => rfl
  | cons hd t ih =>
    simp only [foldAlter]
    rw [ih _ (fun p hp => h p (List.mem_cons_of_mem _ hp))]
    exact lookup_alter_ne m (h hd (List.mem_cons_self _ _)) _

theorem Smap.lookup_foldAlter {α β : Type} (g : β → Option α → Option α) (m : Smap α)
    {l : List (Nat × β)} (hs : RawMap.Sorted l) (k : Nat) :
    (foldAlter g m l).lookup k =
      match RawMap.lookup k l with
      | some b => g b (m.lookup k)
      | none => m.lookup k := by
  induction l generalizing m with
  | nil => rfl
  | cons hd t ih =>
    obtain ⟨k', b⟩ := hd
    rw [RawMap.Sorted, List.pairwise_cons] at hs
    obtain ⟨hlt, hst⟩ := hs
    replace hlt : ∀ p ∈ t, k' < p.1 := hlt
    simp only [foldAlter, RawMap.lookup]
    by_cases h : k' = k
    · subst h
      rw [if_pos rfl]
      rw [lookup_foldAlter_of_none g _ (fun p hp => by have := hlt p hp; omega)]
      rw [lookup_alter_self]
    · rw [if_neg h, ih _ hst]
      rw [lookup_alter_ne m h]

theorem Smap.lookup_foldAlter_of_smap {α β : Type} (g : β → Option α → Option α) (m : Smap α)
    (other : Smap β) (k : Nat) :
    (foldAlter g m other.entries).lookup k =
      match other.lookup k with
      | some b => g b (m.lookup k)
      | none => m.lookup k :=
  lookup_foldAlter g m other.sorted k

/-! ## Operation lemmas -/

theorem BundleAccount.lookup_extendStorage (S U : StorageWithOriginalValues)
    (k : Nat) :
    (BundleAccount.extendStorage S U).lookup k =
      match U.lookup k with
      | some u =>
        some (match S.lookup k with
          | some old => { old with present_value := u.present_value }
          | none => u)
      | none => S.lookup k := by
  unfold BundleAccount.extendStorage
  rw [Smap.lookup_foldAlter_of_smap]
  cases hU : U.lookup k with
  | none => rfl
  | some u => cases hS : S.lookup k <;> rfl

theorem BundleAccount.lookup_applyRevertStorage
    (m : StorageWithOriginalValues) (rs : Smap RevertToSlot) (k : Nat) :
    (BundleAccount.applyRevertStorage m rs).lookup k =
      match rs.lookup k with
      | some (RevertToSlot.Some value) =>
        some (match m.lookup k with
          | some old => { old with present_value := value }
          | none => StorageSlot.mk value value)
      | some RevertToSlot.Destroyed => none
      | none => m.lookup k := by
  unfold BundleAccount.applyRevertStorage
  rw [Smap.lookup_foldAlter_of_smap]
  cases hU : rs.lookup k with
  | none => rfl
  | some r =>
    cases r with
    | Some value => cases hS : m.lookup k <;> rfl
    | Destroyed => rfl

theorem BundleAccount.lookup_previousStorageFromUpdate
    (U : StorageWithOriginalValues) (k : Nat) :
    (BundleAccount.previousStorageFromUpdate U).lookup k =
      (U.lookup k).bind (fun value =>
        if value.original_value ≠ value.present_value then
          some (RevertToSlot.Some value.original_value)
        else none) := by
  unfold BundleAccount.previousStorageFromUpdate
  rw [Smap.lookup_filterMapVals]

theorem BundleAccount.extendStorage_self (S : StorageWithOriginalValues) :
    BundleAccount.extendStorage S S = S := by
  apply Smap.eq_of_lookup_eq
  intro k
  rw [BundleAccount.lookup_extendStorage]
  cases hS : S.lookup k with
  | none => rfl
  | some s => cases s; rfl

/-! ## Arm equations of `update_and_create_revert` -/

theorem update_changed_from_changed (b : BundleAccount)
    (t : TransitionAccount) (hb : b.status = AccountStatus.Changed)
    (ht : t.status = AccountStatus.Changed) :
    BundleAccount.update_and_create_revert b t = some
      ({ b with
          storage := BundleAccount.extendStorage b.storage t.storage
          info := t.info },
       some { account :=
                if b.info ≠ t.info then
                  AccountInfoRevert.RevertTo (b.info.getD AccountInfo.default)
                else AccountInfoRevert.DoNothing
              storage := BundleAccount.previousStorageFromUpdate t.storage
              previous_status := AccountStatus.Changed
              wipe_storage := false }) := by
  simp only [BundleAccount.update_and_create_revert, hb, ht]

theorem update_changed_from_loaded (b : BundleAccount)
    (t : TransitionAccount) (hb : b.status = AccountStatus.Loaded)
    (ht : t.status = AccountStatus.Changed) :
    BundleAccount.update_and_create_revert b t = some
      ({ b with
          status := AccountStatus.Changed
          info := t.info
          storage := BundleAccount.extendStorage b.storage t.storage },
       some { account :=
                if b.info ≠ t.info then
                  AccountInfoRevert.RevertTo (b.info.getD AccountInfo.default)
                else AccountInfoRevert.DoNothing
              storage := BundleAccount.previousStorageFromUpdate t.storage
              previous_status := AccountStatus.Loaded
              wipe_storage := false }) := by
  simp only [BundleAccount.update_and_create_revert, hb, ht]

theorem update_imc_from_imc (b : BundleAccount)
    (t : TransitionAccount) (hb : b.status = AccountStatus.InMemoryChange)
    (ht : t.status = AccountStatus.InMemoryChange) :
    BundleAccount.update_and_create_revert b t = some
      ({ b with
          status := AccountStatus.InMemoryChange
          info := t.info
          storage := BundleAccount.extendStorage b.storage t.storage },
       some { account :=
                if b.info ≠ t.info then
                  AccountInfoRevert.RevertTo (b.info.getD AccountInfo.default)
                else AccountInfoRevert.DoNothing
              storage := BundleAccount.previousStorageFromUpdate t.storage
              previous_status := AccountStatus.InMemoryChange
              wipe_storage := false }) := by
  simp only [BundleAccount.update_and_create_revert, hb, ht]

theorem update_dc_from_dc (b : BundleAccount)
    (t : TransitionAccount)
    (hb : b.status = AccountStatus.DestroyedChanged)
    (ht : t.status = AccountStatus.DestroyedChanged) :
    BundleAccount.update_and_create_revert b t = some
      ({ b with
          status := AccountStatus.DestroyedChanged
          info := t.info
          storage := t.storage },
       some { account :=
                if b.info ≠ t.info then
                  AccountInfoRevert.RevertTo AccountInfo.default
                else AccountInfoRevert.DoNothing
              storage := BundleAccount.previousStorageFromUpdate t.storage
              previous_status := AccountStatus.DestroyedChanged
              wipe_storage := false }) := by
  simp only [BundleAccount.update_and_create_revert, hb, ht,
    AccountRevert.new_selfdestructed_from_bundle]

theorem update_noop_target (b : BundleAccount) (t : TransitionAccount)
    (ht : t.status = AccountStatus.Loaded ∨
      t.status = AccountStatus.LoadedNotExisting ∨
      t.status = AccountStatus.LoadedEmptyEIP161) :
    BundleAccount.update_and_create_revert b t = some (b, none) := by
  rcases ht with h | h | h <;>
    simp only [BundleAccount.update_and_create_revert, h]

theorem update_destroyed_from_lne (b : BundleAccount)
    (t : TransitionAccount)
    (hb : b.status = AccountStatus.LoadedNotExisting)
    (ht : t.status = AccountStatus.Destroyed) :
    BundleAccount.update_and_create_revert b t =
      some ({ b with info := none, storage := Smap.empty }, none) := by
  simp only [BundleAccount.update_and_create_revert, hb, ht]

theorem update_destroyed_from_destroyed (b : BundleAccount)
    (t : TransitionAccount)
    (hb : b.status = AccountStatus.Destroyed)
    (ht : t.status = AccountStatus.Destroyed) :
    BundleAccount.update_and_create_revert b t = none := by
  simp only [BundleAccount.update_and_create_revert, hb, ht]

theorem update_da_from_da (b : BundleAccount)
    (t : TransitionAccount)
    (hb : b.status = AccountStatus.DestroyedAgain)
    (ht : t.status = AccountStatus.DestroyedAgain) :
    BundleAccount.update_and_create_revert b t =
      some ({ b with
                status := AccountStatus.DestroyedAgain
                info := none
                storage := Smap.empty }, none) := by
  simp only [BundleAccount.update_and_create_revert, hb, ht,
    AccountRevert.new_selfdestructed_from_bundle]

/-! ## Revert lemmas -/

theorem revert_status (b : BundleAccount) (r : AccountRevert) :
    (b.revert r).1.status = r.previous_status := by
  unfold BundleAccount.revert
  cases r.account <;> rfl

theorem revert_flag (b : BundleAccount) (r : AccountRevert) :
    (b.revert r).2 = true ↔ r.account = AccountInfoRevert.DeleteIt := by
  unfold BundleAccount.revert
  cases r.account <;> simp

theorem revert_storage_of_not_delete (b : BundleAccount) (r : AccountRevert)
    (h : r.account ≠ AccountInfoRevert.DeleteIt) :
    (b.revert r).1.storage =
      BundleAccount.applyRevertStorage b.storage r.storage := by
  unfold BundleAccount.revert
  cases hacc : r.account with
  | DoNothing => rfl
  | DeleteIt => exact absurd hacc h
  | RevertTo i => rfl

theorem revert_info_do_nothing (b : BundleAccount) (r : AccountRevert)
    (h : r.account = AccountInfoRevert.DoNothing) :
    (b.revert r).1.info = b.info := by
  unfold BundleAccount.revert
  rw [h]

theorem revert_info_revert_to (b : BundleAccount) (r : AccountRevert)
    (i : AccountInfo) (h : r.account = AccountInfoRevert.RevertTo i) :
    (b.revert r).1.info = some i := by
  unfold BundleAccount.revert
  rw [h]

/-! ## Claim theorems -/

/-- Claim C2: the concrete scenario.  Starting from the Loaded bundle with
balance 100 and empty storage, folding the Changed transition with balance
150 and slot 1 going 0 to 5 yields the expected bundle and revert, and
applying that revert restores status Loaded, balance 100 and present value
0 for slot 1. -/
theorem claim2_concrete_scenario :
    BundleAccount.update_and_create_revert bundleLoaded100
        transitionChanged150 =
      some (bundleChanged150, some revertToLoaded100) ∧
    bundleChanged150.status = AccountStatus.Changed ∧
    bundleChanged150.info = some info150 ∧
    (bundleChanged150.storage.lookup 1).map
      (fun s => s.present_value) = some 5 ∧
    revertToLoaded100.account = AccountInfoRevert.RevertTo info100 ∧
    revertToLoaded100.storage.lookup 1 = some (RevertToSlot.Some 0) ∧
    revertToLoaded100.previous_status = AccountStatus.Loaded ∧
    revertToLoaded100.wipe_storage = false ∧
    BundleAccount.revert bundleChanged150 revertToLoaded100 =
      (bundleRestored100, false) ∧
    bundleRestored100.status = AccountStatus.Loaded ∧
    bundleRestored100.info = some info100 ∧
    (bundleRestored100.storage.lookup 1).map
      (fun s => s.present_value) = some 0 := by
  decide

/-- Claim C5: a transition slot contributes a revert entry exactly when
its original and present values differ, and then the entry is
`RevertToSlot.Some original_value`; the revert emitted for the
Changed-to-Changed fold carries exactly this storage map. -/
theorem claim5_storage_diff :
    (∀ (t : TransitionAccount) (k : Nat) (r : RevertToSlot),
      (BundleAccount.previousStorageFromUpdate t.storage).lookup k = some r ↔
        ∃ s, t.storage.lookup k = some s ∧
          s.original_value ≠ s.present_value ∧
          r = RevertToSlot.Some s.original_value) ∧
    (∀ (b : BundleAccount) (t : TransitionAccount),
      b.status = AccountStatus.Changed → t.status = AccountStatus.Changed →
      ∃ b' rv, BundleAccount.update_and_create_revert b t =
          some (b', some rv) ∧
        rv.storage = BundleAccount.previousStorageFromUpdate t.storage) := by
  constructor
  · intro t k r
    rw [BundleAccount.lookup_previousStorageFromUpdate]
    cases h : t.storage.lookup k with
    | none => simp
    | some s =>
      by_cases hne : s.original_value = s.present_value
      · simp [hne]
      · constructor
        · intro h2
          simp only [Option.bind, if_pos hne] at h2  -- placeholder
          exact ⟨s, rfl, hne, by injection h2 with e; rw [e]⟩
        · rintro ⟨s', hs', hne', hr⟩
          injection hs' with e
          subst e
          subst hr
          simp [hne]
  · intro b t hb ht
    exact ⟨_, _, update_changed_from_changed b t hb ht, rfl⟩

/-- Claim C6: `storage_slot` returns the cached present value when the
slot is in the map, otherwise zero when the status makes storage fully
known, otherwise `none`. -/
theorem claim6_storage_slot (b : BundleAccount) (k : Nat) :
    b.storage_slot k =
      match b.storage.lookup k with
      | some s => some s.present_value
      | none =>
        if b.status.storage_known then some 0 else none := by
  unfold BundleAccount.storage_slot
  cases h : b.storage.lookup k with
  | some s => simp [h]
  | none => simp [h]

/-- Claim C7: `revert` returns true exactly for `DeleteIt`; it always
restores the revert's previous status; and when the account is kept, each
`RevertToSlot.Some value` entry sets that slot's present value to `value`
and each `Destroyed` entry removes the slot. -/
theorem claim7_revert_semantics (b : BundleAccount) (r : AccountRevert) :
    ((b.revert r).2 = true ↔ r.account = AccountInfoRevert.DeleteIt) ∧
    (b.revert r).1.status = r.previous_status ∧
    (r.account ≠ AccountInfoRevert.DeleteIt →
      (∀ k value, r.storage.lookup k = some (RevertToSlot.Some value) →
        ∃ s, (b.revert r).1.storage.lookup k = some s ∧
          s.present_value = value) ∧
      (∀ k, r.storage.lookup k = some RevertToSlot.Destroyed →
        (b.revert r).1.storage.lookup k = none)) := by
  refine ⟨revert_flag b r, revert_status b r, fun hne => ⟨?_, ?_⟩⟩
  · intro k value hk
    rw [revert_storage_of_not_delete b r hne,
        BundleAccount.lookup_applyRevertStorage, hk]
    cases hS : b.storage.lookup k with
    | none => exact ⟨_, rfl, rfl⟩
    | some old => exact ⟨_, rfl, rfl⟩
  · intro k hk
    rw [revert_storage_of_not_delete b r hne,
        BundleAccount.lookup_applyRevertStorage, hk]

/-- Claim C8: `extend` adopts the other bundle's status and info, sets the
present value of every slot the other bundle holds, and leaves
`original_info` and the original values of pre-existing slots unchanged
(slots the other bundle does not mention are untouched). -/
theorem claim8_extend (b other : BundleAccount) (k : Nat) :
    (b.extend other).status = other.status ∧
    (b.extend other).info = other.info ∧
    (b.extend other).original_info = b.original_info ∧
    (∀ s, other.storage.lookup k = some s →
      ∃ s', (b.extend other).storage.lookup k = some s' ∧
        s'.present_value = s.present_value ∧
        ∀ sb, b.storage.lookup k = some sb →
          s'.original_value = sb.original_value) ∧
    (other.storage.lookup k = none →
      (b.extend other).storage.lookup k = b.storage.lookup k) := by
  have h := BundleAccount.lookup_extendStorage b.storage other.storage k
  refine ⟨rfl, rfl, rfl, ?_, ?_⟩
  · intro s hs
    rw [hs] at h
    cases hb2 : b.storage.lookup k with
    | none =>
      rw [hb2] at h
      refine ⟨s, h, rfl, ?_⟩
      intro sb hsb
      exact absurd hsb (by simp)
    | some sb0 =>
      rw [hb2] at h
      refine ⟨_, h, rfl, ?_⟩
      intro sb hsb
      injection hsb with e
      rw [← e]
  · intro hnone
    rw [hnone] at h
    exact h

/-- Claim C10: applying a revert whose account part is `DeleteIt` restores
the previous status, deletes info, empties the storage and returns true,
ignoring the revert's per-slot entries entirely. -/
theorem claim10_revert_delete (b : BundleAccount) (r : AccountRevert)
    (h : r.account = AccountInfoRevert.DeleteIt) :
    b.revert r =
      ({ b with
          status := r.previous_status
          info := none
          storage := Smap.empty }, true) := by
  unfold BundleAccount.revert
  rw [h]

/-- Witness for claim C10 at a concrete input: the deleting revert wins
over its (ignored) slot entry. -/
theorem claim10_witness :
    BundleAccount.revert bundleChanged150 revertDeleteExample =
      ({ bundleChanged150 with
          status := AccountStatus.LoadedNotExisting
          info := none
          storage := Smap.empty }, true) :=
  claim10_revert_delete bundleChanged150 revertDeleteExample rfl

/-- Counterexample to claim C3: folding a transition identical to the
bundle in info, storage and status from status `Changed` does not return
`None`; it returns a revert (with account `DoNothing` and one entry per
changed slot), though the bundle itself is left unchanged. -/
theorem claim3_counterexample :
    BundleAccount.update_and_create_revert bundleChangedSlot
        transitionSameChanged =
      some (bundleChangedSlot,
        some { account := AccountInfoRevert.DoNothing
               storage := Smap.ofList [(1, RevertToSlot.Some 0)]
               previous_status := AccountStatus.Changed
               wipe_storage := false }) ∧
    (BundleAccount.update_and_create_revert bundleChangedSlot
        transitionSameChanged).map Prod.snd ≠ some none := by
  decide

/-- Claim C3 as amended, an exhaustive per-status characterization of an
identical fold (same info, storage and status as the bundle): from
`Loaded`, `LoadedNotExisting` or `LoadedEmptyEIP161` it returns `None`
and leaves the bundle unchanged; from `Changed`, `InMemoryChange` or
`DestroyedChanged` the bundle is likewise unchanged but a revert with
account `DoNothing` is returned; from `Destroyed` the call aborts on the
source's unreachable arm; and from `DestroyedAgain` it returns `None` but
clears the bundle's info and storage (keeping the status), so there it is
a no-op only when they were already empty. -/
theorem claim3_noop_amended (b : BundleAccount) (t : TransitionAccount)
    (hinfo : t.info = b.info) (hstorage : t.storage = b.storage)
    (hstatus : t.status = b.status) :
    (b.status = AccountStatus.Loaded ∨
        b.status = AccountStatus.LoadedNotExisting ∨
        b.status = AccountStatus.LoadedEmptyEIP161 →
      BundleAccount.update_and_create_revert b t = some (b, none)) ∧
    (b.status = AccountStatus.Changed ∨
        b.status = AccountStatus.InMemoryChange ∨
        b.status = AccountStatus.DestroyedChanged →
      ∃ rv, BundleAccount.update_and_create_revert b t =
          some (b, some rv) ∧
        rv.account = AccountInfoRevert.DoNothing) ∧
    (b.status = AccountStatus.Destroyed →
      BundleAccount.update_and_create_revert b t = none) ∧
    (b.status = AccountStatus.DestroyedAgain →
      BundleAccount.update_and_create_revert b t =
        some ({ b with info := none, storage := Smap.empty }, none)) := by
  refine ⟨?_, ?_, ?_, ?_⟩
  · intro hb
    apply update_noop_target
    rcases hb with h | h | h
    · exact Or.inl (hstatus.trans h)
    · exact Or.inr (Or.inl (hstatus.trans h))
    · exact Or.inr (Or.inr (hstatus.trans h))
  · intro hb
    rcases hb with hb | hb | hb
    · have harm := update_changed_from_changed b t hb (hstatus.trans hb)
      rw [hstorage, hinfo, BundleAccount.extendStorage_self] at harm
      refine ⟨_, harm, ?_⟩
      simp
    · have harm := update_imc_from_imc b t hb (hstatus.trans hb)
      rw [hstorage, hinfo, BundleAccount.extendStorage_self, ← hb] at harm
      refine ⟨_, harm, ?_⟩
      simp
    · have harm := update_dc_from_dc b t hb (hstatus.trans hb)
      rw [hstorage, hinfo, ← hb] at harm
      refine ⟨_, harm, ?_⟩
      simp
  · intro hb
    exact update_destroyed_from_destroyed b t hb (hstatus.trans hb)
  · intro hb
    rw [update_da_from_da b t hb (hstatus.trans hb), ← hb]

/-- Witness for claim C3 at a concrete input: the identical fold from
`Changed` leaves the bundle unchanged and yields a `DoNothing` revert. -/
theorem claim3_witness :
    ∃ rv, BundleAccount.update_and_create_revert bundleChangedSlot
        transitionSameChanged = some (bundleChangedSlot, some rv) ∧
      rv.account = AccountInfoRevert.DoNothing :=
  (claim3_noop_amended bundleChangedSlot transitionSameChanged
    rfl rfl rfl).2.1 (Or.inl rfl)

/-- Counterexample to claim C4: from `LoadedNotExisting`, a `Destroyed`
transition returns `None` but is not a true no-op on every bundle — a
bundle that still carries an info has it cleared. -/
theorem claim4_counterexample :
    BundleAccount.update_and_create_revert bundleNotExistingInfo
        transitionDestroy =
      some ({ bundleNotExistingInfo with info := none }, none) ∧
    bundleNotExistingInfo.info = some info100 ∧
    ({ bundleNotExistingInfo with info := none } : BundleAccount) ≠
      bundleNotExistingInfo := by
  decide

/-- Claim C4 as amended: from `LoadedNotExisting`, a `Destroyed`
transition returns `None` and keeps the status, but it also clears the
info and storage, so it is a true no-op exactly when the bundle's info was
already `None` and its storage already empty. -/
theorem claim4_destroy_not_existing_amended (b : BundleAccount)
    (t : TransitionAccount)
    (hb : b.status = AccountStatus.LoadedNotExisting)
    (ht : t.status = AccountStatus.Destroyed) :
    BundleAccount.update_and_create_revert b t =
      some ({ b with info := none, storage := Smap.empty }, none) ∧
    ({ b with info := none, storage := Smap.empty } :
      BundleAccount).status = b.status ∧
    (b.info = none → b.storage = Smap.empty →
      BundleAccount.update_and_create_revert b t = some (b, none)) := by
  refine ⟨update_destroyed_from_lne b t hb ht, rfl, ?_⟩
  intro h1 h2
  rw [update_destroyed_from_lne b t hb ht, ← h1, ← h2]

/-- Witness for claim C4 at a concrete input: on the canonical
not-existing bundle the destroy fold is a strict no-op. -/
theorem claim4_witness :
    BundleAccount.update_and_create_revert bundleNotExisting
        transitionDestroy = some (bundleNotExisting, none) :=
  (claim4_destroy_not_existing_amended bundleNotExisting transitionDestroy
    rfl rfl).2.2 rfl rfl

/-- Counterexample to claim C9: a created touched account at an address
absent from the cache does emit a transition, and a touched empty account
at an absent address makes the whole call abort instead of inserting a
placeholder. -/
theorem claim9_counterexample :
    (CacheState.apply_evm_state cacheEmptyState
        [(7, evmAccountCreated)]).map (fun p => p.2.map Prod.fst) =
      some [7] ∧
    cacheEmptyState.accounts.lookup 7 = none ∧
    CacheState.apply_evm_state cacheEmptyState
      [(7, evmAccountEmptyTouched)] = none := by
  decide

/-- Claim C9 as amended: for a touched address absent from the cache the
call inserts a placeholder and emits no transition only in the
selfdestructed and plainly-changed cases; a created account also emits a
synthesized transition with previous status `LoadedNotExisting`; a
touched empty account aborts the call when state clear is enabled and is
skipped entirely (no placeholder) when it is disabled. -/
theorem claim9_vacant_amended (cs : CacheState) (a : Nat)
    (acct : EvmAccount) (hvac : cs.accounts.lookup a = none)
    (htouch : acct.touched = true) :
    (acct.selfdestructed = true →
      CacheState.apply_evm_state cs [(a, acct)] =
        some ({ cs with accounts := (cs.accounts.insert a
                  CacheAccount.new_loaded_not_existing) }, [])) ∧
    (acct.selfdestructed = false → acct.created = true →
      CacheState.apply_evm_state cs [(a, acct)] =
        some ({ cs with accounts := (cs.accounts.insert a
                  (CacheAccount.new_newly_created acct.info
                    (presentValues acct.storage))) },
              [(a, { info := some acct.info
                     status := AccountStatus.InMemoryChange
                     storage := acct.storage
                     previous_info := none
                     previous_status :=
                       AccountStatus.LoadedNotExisting })])) ∧
    (acct.selfdestructed = false → acct.created = false →
      acct.info.is_empty = true → cs.has_state_clear = true →
      CacheState.apply_evm_state cs [(a, acct)] = none) ∧
    (acct.selfdestructed = false → acct.created = false →
      acct.info.is_empty = true → cs.has_state_clear = false →
      CacheState.apply_evm_state cs [(a, acct)] = some (cs, [])) ∧
    (acct.selfdestructed = false → acct.created = false →
      acct.info.is_empty = false →
      CacheState.apply_evm_state cs [(a, acct)] =
        some ({ cs with accounts := (cs.accounts.insert a
                  (CacheAccount.new_changed acct.info
                    (presentValues acct.storage))) }, [])) := by
  refine ⟨?_, ?_, ?_, ?_, ?_⟩
  · intro hsd
    simp [CacheState.apply_evm_state, CacheState.applyOne, htouch, hvac, hsd]
  · intro hsd hcr
    simp [CacheState.apply_evm_state, CacheState.applyOne, htouch, hvac,
      hsd, hcr]
  · intro hsd hcr hemp hclear
    simp [CacheState.apply_evm_state, CacheState.applyOne, htouch, hvac,
      hsd, hcr, hemp, hclear]
  · intro hsd hcr hemp hclear
    simp [CacheState.apply_evm_state, CacheState.applyOne, htouch, hvac,
      hsd, hcr, hemp, hclear]
  · intro hsd hcr hemp
    simp [CacheState.apply_evm_state, CacheState.applyOne, htouch, hvac,
      hsd, hcr, hemp]

/-- Witness for claim C9 at a concrete input: the created account case at
a vacant address. -/
theorem claim9_witness :
    CacheState.apply_evm_state cacheEmptyState [(7, evmAccountCreated)] =
      some ({ cacheEmptyState with
                accounts := (cacheEmptyState.accounts.insert 7
                  (CacheAccount.new_newly_created evmAccountCreated.info
                    (presentValues evmAccountCreated.storage))) },
            [(7, { info := some evmAccountCreated.info
                   status := AccountStatus.InMemoryChange
                   storage := evmAccountCreated.storage
                   previous_info := none
                   previous_status := AccountStatus.LoadedNotExisting })]) :=
  (claim9_vacant_amended cacheEmptyState 7 evmAccountCreated rfl
    rfl).2.1 rfl rfl

/-! ## Round trip (claim C1) -/

theorem roundtrip_storage (S U : StorageWithOriginalValues)
    (hcoh : ∀ k s sb, U.lookup k = some s → S.lookup k = some sb →
      s.original_value = sb.present_value) (k : Nat) (sb : StorageSlot)
    (hk : S.lookup k = some sb) :
    ∃ s', (BundleAccount.applyRevertStorage
        (BundleAccount.extendStorage S U)
        (BundleAccount.previousStorageFromUpdate U)).lookup k = some s' ∧
      s'.present_value = sb.present_value := by
  rw [BundleAccount.lookup_applyRevertStorage,
      BundleAccount.lookup_previousStorageFromUpdate,
      BundleAccount.lookup_extendStorage]
  cases hU : U.lookup k with
  | none =>
    rw [hk]
    exact ⟨sb, rfl, rfl⟩
  | some u =>
    have he := hcoh k u sb hU hk
    rw [hk]
    by_cases hcase : u.original_value = u.present_value
    · simp only [Option.some_bind,
        if_neg (show ¬ (u.original_value ≠ u.present_value) from
          fun hc => hc hcase)]
      refine ⟨_, rfl, ?_⟩
      show u.present_value = sb.present_value
      rw [← hcase]
      exact he
    · simp only [Option.some_bind, if_pos hcase]
      exact ⟨_, rfl, he⟩

theorem roundtrip_after_update (b : BundleAccount) (t : TransitionAccount)
    (b' : BundleAccount) (rv : AccountRevert)
    (hinfo : b.info.isSome = true)
    (hrs : b'.storage = BundleAccount.extendStorage b.storage t.storage)
    (hrvs : rv.storage = BundleAccount.previousStorageFromUpdate t.storage)
    (hacc : rv.account = (if b.info ≠ t.info then
        AccountInfoRevert.RevertTo (b.info.getD AccountInfo.default)
      else AccountInfoRevert.DoNothing))
    (hb'info : b'.info = t.info)
    (hps : rv.previous_status = b.status)
    (hcoh : ∀ k s sb, t.storage.lookup k = some s →
      b.storage.lookup k = some sb → s.original_value = sb.present_value) :
    (b'.revert rv).1.info = b.info ∧
    (b'.revert rv).1.status = b.status ∧
    ∀ k sb, b.storage.lookup k = some sb →
      ∃ s', (b'.revert rv).1.storage.lookup k = some s' ∧
        s'.present_value = sb.present_value := by
  have hnd : rv.account ≠ AccountInfoRevert.DeleteIt := by
    rw [hacc]
    by_cases hi : b.info = t.info
    · simp [hi]
    · simp [hi]
  refine ⟨?_, ?_, ?_⟩
  · by_cases hi : b.info = t.info
    · have hdn : rv.account = AccountInfoRevert.DoNothing := by
        rw [hacc]; simp [hi]
      rw [revert_info_do_nothing b' rv hdn, hb'info, hi]
    · have hrt : rv.account = AccountInfoRevert.RevertTo
          (b.info.getD AccountInfo.default) := by
        rw [hacc]; simp [hi]
      rw [revert_info_revert_to b' rv _ hrt]
      obtain ⟨x, hx⟩ := Option.isSome_iff_exists.mp hinfo
      rw [hx]
      rfl
  · rw [revert_status, hps]
  · intro k sb hk
    rw [revert_storage_of_not_delete b' rv hnd, hrs, hrvs]
    exact roundtrip_storage b.storage t.storage hcoh k sb hk

/-- Counterexample to claim C1: one fold and its revert on the concrete
scenario restore info and status but not the storage exactly — slot 1 was
absent initially and reappears as an entry with present value 0, so the
present-value map (and `storage_slot`) of the restored bundle differs
from the initial one. -/
theorem claim1_counterexample :
    BundleAccount.update_and_create_revert bundleLoaded100
        transitionChanged150 =
      some (bundleChanged150, some revertToLoaded100) ∧
    BundleAccount.revert bundleChanged150 revertToLoaded100 =
      (bundleRestored100, false) ∧
    bundleRestored100.info = bundleLoaded100.info ∧
    bundleRestored100.status = bundleLoaded100.status ∧
    bundleLoaded100.storage.lookup 1 = none ∧
    bundleRestored100.storage.lookup 1 = some ⟨0, 0⟩ ∧
    bundleLoaded100.storage_slot 1 = none ∧
    bundleRestored100.storage_slot 1 = some 0 ∧
    bundleRestored100 ≠ bundleLoaded100 := by
  decide

/-- Claim C1 as amended: for one fold along the plain paths (`Changed`
from `Changed` or `Loaded`, `InMemoryChange` from `InMemoryChange`), on a
bundle with known info and with the transition's original values agreeing
with the bundle's present values on shared slots, applying the emitted
revert to the updated bundle restores the info and status exactly and the
present value of every slot that was present initially (slots first
introduced by the fold may remain as entries holding their reverted
value). -/
theorem claim1_roundtrip_amended (b : BundleAccount)
    (t : TransitionAccount) (hinfo : b.info.isSome = true)
    (hpair :
      (b.status = AccountStatus.Changed ∧
        t.status = AccountStatus.Changed) ∨
      (b.status = AccountStatus.Loaded ∧
        t.status = AccountStatus.Changed) ∨
      (b.status = AccountStatus.InMemoryChange ∧
        t.status = AccountStatus.InMemoryChange))
    (hcoh : ∀ k s sb, t.storage.lookup k = some s →
      b.storage.lookup k = some sb → s.original_value = sb.present_value) :
    ∃ b' rv, BundleAccount.update_and_create_revert b t =
        some (b', some rv) ∧
      (b'.revert rv).1.info = b.info ∧
      (b'.revert rv).1.status = b.status ∧
      ∀ k sb, b.storage.lookup k = some sb →
        ∃ s', (b'.revert rv).1.storage.lookup k = some s' ∧
          s'.present_value = sb.present_value := by
  rcases hpair with ⟨hb, ht⟩ | ⟨hb, ht⟩ | ⟨hb, ht⟩
  · refine ⟨_, _, update_changed_from_changed b t hb ht, ?_⟩
    exact roundtrip_after_update b t _ _ hinfo rfl rfl rfl rfl hb.symm hcoh
  · refine ⟨_, _, update_changed_from_loaded b t hb ht, ?_⟩
    exact roundtrip_after_update b t _ _ hinfo rfl rfl rfl rfl hb.symm hcoh
  · refine ⟨_, _, update_imc_from_imc b t hb ht, ?_⟩
    exact roundtrip_after_update b t _ _ hinfo rfl rfl rfl rfl hb.symm hcoh

/-- Witness for claim C1 at a concrete input: the Loaded-to-Changed fold
of the concrete scenario round-trips info, status and the (empty) initial
storage. -/
theorem claim1_witness :
    ∃ b' rv, BundleAccount.update_and_create_revert bundleLoaded100
        transitionChanged150 = some (b', some rv) ∧
      (b'.revert rv).1.info = bundleLoaded100.info ∧
      (b'.revert rv).1.status = bundleLoaded100.status ∧
      ∀ k sb, bundleLoaded100.storage.lookup k = some sb →
        ∃ s', (b'.revert rv).1.storage.lookup k = some s' ∧
          s'.present_value = sb.present_value := by
  apply claim1_roundtrip_amended bundleLoaded100 transitionChanged150 rfl
    (Or.inr (Or.inl ⟨rfl, rfl⟩))
  intro k s sb _ hbs
  exact absurd hbs (by simp [bundleLoaded100])

end Revm
